import Mathlib

/-!
Verification development for the guided-learning session orchestrator.

The definitions below are a shallow embedding of the Python sources:
`models.py` (data model), `storage.py` (session store), `agents/locate.py`,
`agents/interactive.py`, `agents/chat.py`, `agents/summary.py` (the four
agents), and `manager.py` (the `GuideManager` orchestrator).

Modelling conventions:
- The external completion gateway (`llm.base.LLMClient`) is an oracle: each
  operation takes the gateway outcome as an explicit `Except String String`
  parameter (`.error` models a raised `LLMError`).  Prompt templates only
  feed the gateway, so prompt construction is elided except where the claim
  under verification depends on it (the chat-history window).
- `json.loads` / the JSON-extraction regexes of `_extract_json` are library
  calls on oracle text; they are modelled by an explicit
  `String → Option JsonValue` parameter (`none` models a parse failure).
- Python exceptions escaping an operation are modelled with `Except PyErr`.
- Machine floats (`created_at`, message timestamps) are carried opaquely as
  `Lean.Float` values; no arithmetic is ever performed on them.
- The cursor and knowledge-point indices are natural numbers.
-/

/-- Python-level exceptions that can escape an orchestrator operation. -/
inductive PyErr where
  | llmError (msg : String)
  | indexError
  | attributeError
deriving DecidableEq

/-- Message role (`models.Role`, a literal of system/user/assistant). -/
inductive Role where
  | system
  | user
  | assistant
deriving DecidableEq

/-- Session lifecycle status (`models.SessionStatus`). -/
inductive SessionStatus where
  | initialized
  | learning
  | completed
deriving DecidableEq

/-- Render a `SessionStatus` the way the Python string literal reads. -/
def SessionStatus.toStr : SessionStatus → String
  | .initialized => "initialized"
  | .learning => "learning"
  | .completed => "completed"

/-- Input record (`models.LearningRecord`). -/
structure LearningRecord where
  id : String
  type : String
  title : String
  user_query : String
  output : String
deriving DecidableEq

/-- Curriculum unit (`models.KnowledgePoint`). -/
structure KnowledgePoint where
  knowledge_title : String
  knowledge_summary : String
  user_difficulty : String
deriving DecidableEq

/-- Chat-log entry (`models.GuideMessage`). -/
structure GuideMessage where
  role : Role
  content : String
  timestamp : Float
  knowledge_index : Option Nat

/-- Session aggregate (`models.GuideSession`). -/
structure GuideSession where
  session_id : String
  notebook_id : String
  notebook_name : String
  created_at : Float
  status : SessionStatus
  knowledge_points : List KnowledgePoint
  current_index : Nat
  chat_history : List GuideMessage
  current_html : String
  summary_markdown : String

/-! ### Python string helpers

`str.strip` and `str.replace` are reimplemented over character lists so that
every definition evaluates by kernel reduction. -/

/-- Whitespace test used by `str.strip` (ASCII whitespace suffices here). -/
def isPySpace (c : Char) : Bool :=
  (c == ' ') || (c == '\t') || (c == '\n') || (c == '\r')

/-- Model of Python `str.strip()`. -/
def pyStrip (s : String) : String :=
  ⟨((s.data.dropWhile isPySpace).reverse.dropWhile isPySpace).reverse⟩

/-- Fueled substring replacement on character lists. -/
def replaceFuel : Nat → List Char → List Char → List Char → List Char
  | 0, s, _, _ => s
  | _ + 1, [], _, _ => []
  | fuel + 1, c :: rest, pat, rep =>
    if pat.isPrefixOf (c :: rest) then
      rep ++ replaceFuel fuel ((c :: rest).drop pat.length) pat rep
    else
      c :: replaceFuel fuel rest pat rep

/-- Model of Python `str.replace(pat, rep)` (for a non-empty pattern). -/
def pyReplace (s pat rep : String) : String :=
  if pat.data.isEmpty then s
  else ⟨replaceFuel s.data.length s.data pat.data rep.data⟩

/-! ### JSON values and Python-dict association lists -/

/-- JSON-like values produced by `json.loads` on model output. -/
inductive JsonValue where
  | null
  | bool (b : Bool)
  | num (n : Int)
  | str (s : String)
  | arr (xs : List JsonValue)
  | obj (kvs : List (String × JsonValue))

/-- An object payload: an insertion-ordered Python dict. -/
abbrev JsonObj := List (String × JsonValue)

/-- First-match lookup, i.e. Python `d.get(key)` (keys are unique in dicts). -/
def lookup : JsonObj → String → Option JsonValue
  | [], _ => none
  | (k, v) :: rest, key => if k = key then some v else lookup rest key

/-- Python `d[key] = v`: replace in place, or append at the end. -/
def setKey : JsonObj → String → JsonValue → JsonObj
  | [], key, v => [(key, v)]
  | (k, w) :: rest, key, v =>
    if k = key then (k, v) :: rest else (k, w) :: setKey rest key v

/-- Python truthiness of a JSON value. -/
def jsonTruthy : JsonValue → Bool
  | .null => false
  | .bool b => b
  | .num n => n != 0
  | .str s => s ≠ ""
  | .arr xs => !xs.isEmpty
  | .obj kvs => !kvs.isEmpty

/-- Whether a JSON value is a sequence (`isinstance(x, list)`). -/
def isJsonArr : JsonValue → Bool
  | .arr _ => true
  | _ => false

/-- Whether a JSON value is a mapping (`isinstance(x, dict)`). -/
def isJsonObj : JsonValue → Bool
  | .obj _ => true
  | _ => false

/-- Python `str(...)` of a JSON value; the rendering of non-string composite
values is abbreviated (no verified claim depends on it). -/
def pyStr : JsonValue → String
  | .null => "None"
  | .bool true => "True"
  | .bool false => "False"
  | .num n => toString n
  | .str s => s
  | .arr _ => "[...]"
  | .obj _ => "[...]"

/-! ### InteractiveAgent (`agents/interactive.py`) -/

/-- Deterministic fallback payload (`InteractiveAgent._payload_from_knowledge`). -/
def payloadFromKnowledge (knowledge : KnowledgePoint) : JsonObj :=
  let title := if knowledge.knowledge_title = "" then "Knowledge Point"
               else knowledge.knowledge_title
  let summary := knowledge.knowledge_summary
  let difficulty := if knowledge.user_difficulty = "" then "Beginner"
                    else knowledge.user_difficulty
  [("title", .str title),
   ("concept", .str summary),
   ("key_points", .arr [
      .str "Summarize the core idea in your own words.",
      .str "Identify the key inputs, outputs, and assumptions.",
      .str ("Common difficulty: " ++ difficulty)]),
   ("example_problem", .str ("Explain " ++ title ++ " with a simple example.")),
   ("example_answer", .str summary),
   ("check_question", .str ("In one paragraph, explain " ++ title ++ ".")),
   ("next_hint", .str "If this makes sense, move to the next knowledge point.")]

/-- The seven required artifact-payload fields, in source order. -/
def requiredKeys : List String :=
  ["title", "concept", "key_points", "example_problem", "example_answer",
   "check_question", "next_hint"]

/-- Backfill pass of `_normalize_payload`: for each required key missing from
the payload, insert the fallback's value for that key. -/
def backfill (fallback : JsonObj) (keys : List String) (p : JsonObj) : JsonObj :=
  keys.foldl
    (fun acc k =>
      if (lookup acc k).isSome then acc
      else setKey acc k ((lookup fallback k).getD .null))
    p

/-- Model of `InteractiveAgent._normalize_payload`.  Note Python's
`if not payload or not isinstance(payload, dict)` is also true for an *empty*
dict, which therefore takes the full-fallback path. -/
def normalizePayload (payload : Option JsonValue) (knowledge : KnowledgePoint) :
    JsonObj :=
  let fallback := payloadFromKnowledge knowledge
  match payload with
  | some (.obj kvs) =>
    if kvs.isEmpty then fallback
    else
      let p1 := backfill fallback requiredKeys kvs
      match lookup p1 "key_points" with
      | some (.arr _) => p1
      | _ => setKey p1 "key_points" ((lookup fallback "key_points").getD .null)
  | _ => fallback

/-- Character escaping of Python `html.escape` (quote mode). -/
def escapeChar (c : Char) : List Char :=
  if c = '&' then "&amp;".data
  else if c = '<' then "&lt;".data
  else if c = '>' then "&gt;".data
  else if c = '"' then "&quot;".data
  else if c = Char.ofNat 39 then "&#x27;".data
  else [c]

/-- Model of `html.escape(s, quote=True)`. -/
def htmlEscape (s : String) : String :=
  ⟨s.data.foldr (fun c acc => escapeChar c ++ acc) []⟩

/-- Escaped field with newlines turned into line breaks, as in `_render_html`. -/
def escapeBr (s : String) : String :=
  pyReplace (htmlEscape s) "\n" "<br>"

/-- Model of `InteractiveAgent._render_html`.  The static HTML/CSS template
text is abbreviated to the dynamic, escaped fields it embeds (in template
order) plus the `__SESSION_ID__` placeholder; no verified claim depends on
the surrounding boilerplate. -/
def renderHtml (payload : JsonObj) : String :=
  let title := htmlEscape (pyStr ((lookup payload "title").getD (.str "")))
  let concept := escapeBr (pyStr ((lookup payload "concept").getD (.str "")))
  let example_problem :=
    escapeBr (pyStr ((lookup payload "example_problem").getD (.str "")))
  let example_answer :=
    escapeBr (pyStr ((lookup payload "example_answer").getD (.str "")))
  let check_question :=
    escapeBr (pyStr ((lookup payload "check_question").getD (.str "")))
  let next_hint := escapeBr (pyStr ((lookup payload "next_hint").getD (.str "")))
  let key_points :=
    match lookup payload "key_points" with
    | some (.arr xs) => xs
    | _ => []
  let key_points_html :=
    String.intercalate "\n"
      (key_points.map (fun item => "<li>" ++ htmlEscape (pyStr item) ++ "</li>"))
  "<!DOCTYPE html><title>" ++ title ++ "</title>" ++
    "<h2>Concept</h2>" ++ concept ++
    "<ul>" ++ key_points_html ++ "</ul>" ++
    "<h2>Example Problem</h2>" ++ example_problem ++
    "<div>" ++ example_answer ++ "</div>" ++
    "<h2>Check Your Understanding</h2>" ++ check_question ++
    "<h2>Next</h2>" ++ next_hint ++
    "<script>var sessionId = \"__SESSION_ID__\";</script>"

/-- Result envelope of `InteractiveAgent.process`. -/
structure InteractiveResult where
  success : Bool
  html : String
  is_fallback : Bool
  error : Option String := none

/-- Model of `InteractiveAgent.process`: call the gateway (`llm`), extract a
JSON payload from the response (`extract` models `_extract_json`), normalise,
render.  The flag is `payload is None`; any exception still yields a rendered
fallback with the flag set. -/
def interactiveProcess (llm : Except String String)
    (extract : String → Option JsonValue) (knowledge : KnowledgePoint) :
    InteractiveResult :=
  match llm with
  | .ok response_text =>
    let payload := extract response_text
    let normalized := normalizePayload payload knowledge
    { success := true, html := renderHtml normalized,
      is_fallback := payload.isNone }
  | .error e =>
    { success := true, html := renderHtml (normalizePayload none knowledge),
      is_fallback := true, error := some e }

/-! ### ChatAgent (`agents/chat.py`) -/

/-- One rendered history line of `ChatAgent._format_history`. -/
def renderHistLine (m : GuideMessage) : String :=
  match m.role with
  | .user => "**User**: " ++ m.content
  | .assistant => "**Assistant**: " ++ m.content
  | .system => "_System: " ++ m.content ++ "_"

/-- Python `l[-n:]`: the most recent `n` entries. -/
def lastN (n : Nat) (l : List GuideMessage) : List GuideMessage :=
  l.drop (l.length - n)

/-- Model of `ChatAgent._format_history` (default `max_messages = 10`). -/
def formatHistory (history : List GuideMessage) : String :=
  if history.isEmpty then "(No chat history)"
  else String.intercalate "\n\n" ((lastN 10 history).map renderHistLine)

/-- Result envelope of `ChatAgent.process`. -/
structure ChatResult where
  success : Bool
  answer : String
  error : Option String := none

/-- Model of `ChatAgent.process`.  The gateway oracle is a function of the
formatted history string, standing for the user prompt that embeds it (the
rest of the prompt template is external and constant). -/
def chatAgentProcess (llm : String → Except String String)
    (_knowledge : KnowledgePoint) (chat_history : List GuideMessage)
    (user_question : String) : ChatResult :=
  if pyStrip user_question = "" then
    { success := false, error := some "Question cannot be empty", answer := "" }
  else
    match llm (formatHistory chat_history) with
    | .ok response => { success := true, answer := pyStrip response }
    | .error e =>
      { success := false, error := some e,
        answer := "Failed to answer. Please retry." }

/-! ### SummaryAgent (`agents/summary.py`) -/

/-- Result envelope of `SummaryAgent.process`. -/
structure SummaryResult where
  success : Bool
  summary_markdown : String
  error : Option String := none

/-- Model of `SummaryAgent.process`: a failed completion degrades to a stub
summary naming the notebook; the method never raises. -/
def summaryProcess (llm : Except String String) (notebook_name : String) :
    SummaryResult :=
  match llm with
  | .ok response => { success := true, summary_markdown := pyStrip response }
  | .error e =>
    { success := false, error := some e,
      summary_markdown := "# Learning Summary\n\nCompleted: **" ++
        notebook_name ++ "**" }

/-! ### LocateAgent (`agents/locate.py`) -/

/-- Result envelope of `LocateAgent.process`. -/
structure LocateResult where
  success : Bool
  knowledge_points : List KnowledgePoint
  error : Option String := none

/-- The `or`-chain `parsed.get("knowledge_points") or parsed.get("points") or
parsed.get("data") or parsed.get("items") or []` over a parsed mapping. -/
def orGet (kvs : JsonObj) : List String → JsonValue
  | [] => .arr []
  | k :: rest =>
    match lookup kvs k with
    | some v => if jsonTruthy v then v else orGet kvs rest
    | none => orGet kvs rest

/-- One knowledge point from a parsed mapping entry (locate lines 99-103). -/
def kpOfItem (ikvs : JsonObj) : KnowledgePoint :=
  let title := pyStrip (pyStr ((lookup ikvs "knowledge_title").getD (.str "")))
  { knowledge_title := if title = "" then "Untitled" else title,
    knowledge_summary :=
      pyStrip (pyStr ((lookup ikvs "knowledge_summary").getD (.str ""))),
    user_difficulty :=
      pyStrip (pyStr ((lookup ikvs "user_difficulty").getD (.str ""))) }

/-- Knowledge-point extraction from the parsed JSON (locate lines 81-104):
accept a top-level list, or a recognised alternate key of a mapping; keep
only mapping entries, degrading the rest. -/
def pointsFromParsed (parsed : JsonValue) : List KnowledgePoint :=
  let raw_points : JsonValue :=
    match parsed with
    | .arr xs => .arr xs
    | .obj kvs => orGet kvs ["knowledge_points", "points", "data", "items"]
    | _ => .arr []
  match raw_points with
  | .arr items =>
    items.filterMap (fun item =>
      match item with
      | .obj ikvs => some (kpOfItem ikvs)
      | _ => none)
  | _ => []

/-- Model of `LocateAgent.process`.  `llmStructured` is the JSON-mode call and
`llmFreeform` the fallback call (any first-call failure triggers the retry;
a second-call failure propagates).  `parse` models `json.loads`, with `none`
standing for `JSONDecodeError` (caught and turned into a failure envelope). -/
def locateProcess (llmStructured llmFreeform : Except String String)
    (parse : String → Option JsonValue) (records : List LearningRecord) :
    Except PyErr LocateResult :=
  if records.isEmpty then
    .ok { success := false, error := some "No records provided",
          knowledge_points := [] }
  else
    let response? : Except PyErr String :=
      match llmStructured with
      | .ok t => .ok t
      | .error _ =>
        match llmFreeform with
        | .ok t => .ok t
        | .error m => .error (.llmError m)
    match response? with
    | .error e => .error e
    | .ok response_text =>
      match parse response_text with
      | none =>
        .ok { success := false,
              error := some "LocateAgent JSON parsing failed",
              knowledge_points := [] }
      | some parsed =>
        .ok { success := true, knowledge_points := pointsFromParsed parsed }

/-! ### GuideManager (`manager.py`) -/

/-- The dict returned by `GuideManager._learning_state`. -/
structure LearningStateResult where
  success : Bool
  statusStr : String
  error : Option String := none
  current_index : Nat := 0
  current_knowledge : Option KnowledgePoint := none
  total_points : Nat := 0
  progress : Nat := 0
  message : String := ""

/-- Model of `GuideManager._learning_state`.  The Python progress expression
`int((current_index / total) * 100)` is modelled by natural division; no
verified claim depends on the float rounding. -/
def learningState (points : List KnowledgePoint) (current_index : Nat) :
    LearningStateResult :=
  if points.length = 0 then
    { success := false, statusStr := "empty",
      error := some "No knowledge points" }
  else if h : points.length ≤ current_index then
    { success := true, statusStr := "completed",
      current_index := current_index, total_points := points.length,
      progress := 100, message := "Completed all knowledge points." }
  else
    let current := points.get ⟨current_index, Nat.lt_of_not_le h⟩
    { success := true, statusStr := "learning",
      current_index := current_index, current_knowledge := some current,
      total_points := points.length,
      progress := current_index * 100 / points.length,
      message := "Starting knowledge point " ++ Nat.repr (current_index + 1) ++
        ": " ++ current.knowledge_title }

/-- Model of `GuideManager._inject_session_id`. -/
def injectSessionId (html : String) (session_id : String) : String :=
  if html = "" then html
  else pyReplace html "__SESSION_ID__" session_id

/-- The success/failure dict every orchestrator operation returns (only the
keys some operation writes are modelled; absent keys are `none`). -/
structure OpResult where
  success : Bool
  error : Option String := none
  session_id : Option String := none
  statusStr : Option String := none
  current_index : Option Nat := none
  html : Option String := none
  answer : Option String := none
  summary : Option String := none
  message : Option String := none

/-- The freshly created session persisted by `create_session`. -/
def initialSession (session_id notebook_id notebook_name : String)
    (created_at : Float) (points : List KnowledgePoint) : GuideSession :=
  { session_id := session_id, notebook_id := notebook_id,
    notebook_name := notebook_name, created_at := created_at,
    status := .initialized, knowledge_points := points, current_index := 0,
    chat_history := [], current_html := "", summary_markdown := "" }

/-- Model of `GuideManager.create_session`.  The generated `uuid` short id is
the `session_id` parameter.  Returns the envelope plus the persisted session
(when one is created); a locate-level exception propagates. -/
def createSession (llmStructured llmFreeform : Except String String)
    (parse : String → Option JsonValue) (session_id : String)
    (notebook_id notebook_name : String) (created_at : Float)
    (records : List LearningRecord) :
    Except PyErr (OpResult × Option GuideSession) :=
  match locateProcess llmStructured llmFreeform parse records with
  | .error e => .error e
  | .ok locate =>
    if !locate.success then
      .ok ({ success := false,
             error := some (locate.error.getD "Locate failed"),
             session_id := none }, none)
    else
      let points := locate.knowledge_points
      if points.isEmpty then
        .ok ({ success := false, error := some "No knowledge points found",
               session_id := none }, none)
      else
        .ok ({ success := true, session_id := some session_id },
             some (initialSession session_id notebook_id notebook_name
               created_at points))

/-- Model of `GuideManager.start` on a loaded session (the not-found path
leaves no session to mutate and returns a failure envelope upstream). -/
def startOp (intLlm : Except String String)
    (extract : String → Option JsonValue) (now : Float) (s : GuideSession) :
    Except PyErr (OpResult × GuideSession) :=
  let st := learningState s.knowledge_points 0
  if !st.success then
    .ok ({ success := false, statusStr := some st.statusStr,
           error := st.error }, s)
  else
    match st.current_knowledge with
    | none => .error .attributeError
    | some knowledge =>
      let html_result := interactiveProcess intLlm extract knowledge
      let current_html := injectSessionId html_result.html s.session_id
      let s' : GuideSession :=
        { s with
          status := .learning
          current_index := 0
          current_html := current_html
          chat_history := s.chat_history ++
            [{ role := .system, content := st.message, timestamp := now,
               knowledge_index := some 0 }] }
      .ok ({ success := true, current_index := some 0,
             html := some current_html, message := some st.message }, s')

/-- Model of `GuideManager.next` on a loaded session. -/
def nextOp (sumLlm intLlm : Except String String)
    (extract : String → Option JsonValue) (now : Float) (s : GuideSession) :
    Except PyErr (OpResult × GuideSession) :=
  let new_index := s.current_index + 1
  let st := learningState s.knowledge_points new_index
  if !st.success then
    .ok ({ success := false, statusStr := some st.statusStr,
           error := st.error }, s)
  else if st.statusStr = "completed" then
    let summary := summaryProcess sumLlm s.notebook_name
    let s' : GuideSession :=
      { s with
        status := .completed
        current_index := new_index
        summary_markdown := summary.summary_markdown
        chat_history := s.chat_history ++
          [{ role := .system, content := st.message, timestamp := now,
             knowledge_index := none }] }
    .ok ({ success := true, statusStr := some "completed",
           summary := some s'.summary_markdown, message := some st.message },
         s')
  else
    match st.current_knowledge with
    | none => .error .attributeError
    | some knowledge =>
      let html_result := interactiveProcess intLlm extract knowledge
      let current_html := injectSessionId html_result.html s.session_id
      let msg := "Entering knowledge point " ++ Nat.repr (new_index + 1) ++
        ": " ++ knowledge.knowledge_title
      let s' : GuideSession :=
        { s with
          current_index := new_index
          current_html := current_html
          chat_history := s.chat_history ++
            [{ role := .system, content := msg, timestamp := now,
               knowledge_index := some new_index }] }
      .ok ({ success := true, current_index := some new_index,
             html := some current_html, message := some msg }, s')

/-- The per-point history filter of `GuideManager.chat` (line 268):
only messages tagged with the current index. -/
def historyFor (s : GuideSession) : List GuideMessage :=
  s.chat_history.filter
    (fun m => decide (m.knowledge_index = some s.current_index))

/-- Model of `GuideManager.chat` on a loaded session.  Indexing
`knowledge_points[idx]` out of range raises; the history is computed before
the learner's message is appended; the envelope reports success regardless of
the chat agent's own envelope. -/
def chatOp (llm : String → Except String String) (now : Float)
    (message : String) (s : GuideSession) :
    Except PyErr (OpResult × GuideSession) :=
  if s.status ≠ .learning then
    .ok ({ success := false,
           error := some ("Invalid session status: " ++ s.status.toStr) }, s)
  else
    let idx := s.current_index
    match s.knowledge_points[idx]? with
    | none => .error .indexError
    | some knowledge =>
      let history := historyFor s
      let result := chatAgentProcess llm knowledge history message
      let answer := result.answer
      let s' : GuideSession :=
        { s with chat_history := s.chat_history ++
            [{ role := .user, content := message, timestamp := now,
               knowledge_index := some idx },
             { role := .assistant, content := answer, timestamp := now,
               knowledge_index := some idx }] }
      .ok ({ success := true, answer := some answer,
             current_index := some idx }, s')

/-- Model of `GuideManager.fix_html` on a loaded session.  Indexing
`knowledge_points[current_index]` out of range raises; the stored artifact is
replaced only when the agent reports success. -/
def fixOp (intLlm : Except String String)
    (extract : String → Option JsonValue) (_bug_description : String)
    (s : GuideSession) : Except PyErr (OpResult × GuideSession) :=
  match s.knowledge_points[s.current_index]? with
  | none => .error .indexError
  | some knowledge =>
    let result := interactiveProcess intLlm extract knowledge
    if result.success then
      let s' : GuideSession :=
        { s with current_html := injectSessionId result.html s.session_id }
      .ok ({ success := result.success, html := some result.html,
             error := result.error }, s')
    else
      .ok ({ success := false, html := some result.html,
             error := result.error }, s)

/-- The session state after an operation: the mutated session on a normal
return, the untouched session when an exception escapes before any mutation
(both raise sites precede every mutation in the source). -/
def resultState (r : Except PyErr (OpResult × GuideSession))
    (s : GuideSession) : GuideSession :=
  match r with
  | .ok (_, s') => s'
  | .error _ => s

/-- The envelope success flag of an operation result (`false` if it raised). -/
def opSuccess (r : Except PyErr (OpResult × GuideSession)) : Bool :=
  match r with
  | .ok (env, _) => env.success
  | .error _ => false

/-- Sessions reachable through the orchestrator: created by a successful
`create_session` (whose curriculum is some non-empty point list), then evolved
by any sequence of `start`, `next`, `chat`, `fix_html` under arbitrary gateway
behaviour. -/
inductive Reachable : GuideSession → Prop
  | create (session_id notebook_id notebook_name : String)
      (created_at : Float) (points : List KnowledgePoint)
      (hp : points ≠ []) :
      Reachable (initialSession session_id notebook_id notebook_name
        created_at points)
  | step_start (s : GuideSession) (intLlm : Except String String)
      (extract : String → Option JsonValue) (now : Float)
      (h : Reachable s) :
      Reachable (resultState (startOp intLlm extract now s) s)
  | step_next (s : GuideSession) (sumLlm intLlm : Except String String)
      (extract : String → Option JsonValue) (now : Float)
      (h : Reachable s) :
      Reachable (resultState (nextOp sumLlm intLlm extract now s) s)
  | step_chat (s : GuideSession) (llm : String → Except String String)
      (now : Float) (message : String) (h : Reachable s) :
      Reachable (resultState (chatOp llm now message s) s)
  | step_fix (s : GuideSession) (intLlm : Except String String)
      (extract : String → Option JsonValue) (bug : String)
      (h : Reachable s) :
      Reachable (resultState (fixOp intLlm extract bug s) s)

/-! ### Serialization (`models.py` `to_dict`/`from_dict`, `storage.py`) -/

/-- The dict emitted by `KnowledgePoint.to_dict`. -/
structure KnowledgePointDict where
  knowledge_title : String
  knowledge_summary : String
  user_difficulty : String
deriving DecidableEq

/-- Model of `KnowledgePoint.to_dict`. -/
def KnowledgePoint.to_dict (kp : KnowledgePoint) : KnowledgePointDict :=
  { knowledge_title := kp.knowledge_title
    knowledge_summary := kp.knowledge_summary
    user_difficulty := kp.user_difficulty }

/-- Model of `KnowledgePoint.from_dict` (the `str(...)` coercions are identity
on the string-valued fields the dict carries). -/
def KnowledgePoint.from_dict (d : KnowledgePointDict) : KnowledgePoint :=
  { knowledge_title := d.knowledge_title
    knowledge_summary := d.knowledge_summary
    user_difficulty := d.user_difficulty }

/-- The dict emitted by `GuideMessage.to_dict`; the `knowledge_index` key is
present exactly when the field is not `None`, which `Option` models. -/
structure MessageDict where
  role : Role
  content : String
  timestamp : Float
  knowledge_index : Option Nat

/-- Model of `GuideMessage.to_dict`. -/
def GuideMessage.to_dict (m : GuideMessage) : MessageDict :=
  { role := m.role
    content := m.content
    timestamp := m.timestamp
    knowledge_index := m.knowledge_index }

/-- Model of `GuideMessage.from_dict` (`float(...)`/`str(...)` are identity on
the carried values; a missing `knowledge_index` key reads as `None`). -/
def GuideMessage.from_dict (d : MessageDict) : GuideMessage :=
  { role := d.role
    content := d.content
    timestamp := d.timestamp
    knowledge_index := d.knowledge_index }

/-- The dict emitted by `GuideSession.to_dict`.  The legacy `summary` key is
never written by `to_dict` but is read by `from_dict`, so it is carried as an
optional field. -/
structure SessionDict where
  session_id : String
  notebook_id : String
  notebook_name : String
  created_at : Float
  status : SessionStatus
  knowledge_points : List KnowledgePointDict
  current_index : Nat
  chat_history : List MessageDict
  current_html : String
  summary_markdown : String
  summary : Option String

/-- Model of `GuideSession.to_dict`. -/
def GuideSession.to_dict (s : GuideSession) : SessionDict :=
  { session_id := s.session_id
    notebook_id := s.notebook_id
    notebook_name := s.notebook_name
    created_at := s.created_at
    status := s.status
    knowledge_points := s.knowledge_points.map KnowledgePoint.to_dict
    current_index := s.current_index
    chat_history := s.chat_history.map GuideMessage.to_dict
    current_html := s.current_html
    summary_markdown := s.summary_markdown
    summary := none }

/-- Model of `GuideSession.from_dict`, including the Python truthiness chain
`data.get("summary_markdown") or data.get("summary") or ""` (the `or []`
guards on the two lists are identity on lists and are inlined). -/
def GuideSession.from_dict (d : SessionDict) : GuideSession :=
  { session_id := d.session_id
    notebook_id := d.notebook_id
    notebook_name := d.notebook_name
    created_at := d.created_at
    status := d.status
    knowledge_points := d.knowledge_points.map KnowledgePoint.from_dict
    current_index := d.current_index
    chat_history := d.chat_history.map GuideMessage.from_dict
    current_html := d.current_html
    summary_markdown :=
      if d.summary_markdown ≠ "" then d.summary_markdown
      else match d.summary with
        | some t => if t ≠ "" then t else ""
        | none => "" }

/-- The on-disk state of `FileSessionStore`: one JSON snapshot per session id
(the JSON text layer is the external `json.dumps`/`json.loads` pair and is
faithful on these dicts). -/
abbrev StoreState := List (String × SessionDict)

/-- Keyed lookup in the store directory. -/
def storeFind : StoreState → String → Option SessionDict
  | [], _ => none
  | (k, v) :: rest, key => if k = key then some v else storeFind rest key

/-- Atomic replace-or-create of one session file. -/
def storeSet : StoreState → String → SessionDict → StoreState
  | [], key, v => [(key, v)]
  | (k, w) :: rest, key, v =>
    if k = key then (k, v) :: rest else (k, w) :: storeSet rest key v

/-- Model of `FileSessionStore.save`. -/
def FileSessionStore.save (st : StoreState) (s : GuideSession) : StoreState :=
  storeSet st s.session_id s.to_dict

/-- Model of `FileSessionStore.load`. -/
def FileSessionStore.load (st : StoreState) (session_id : String) :
    Option GuideSession :=
  (storeFind st session_id).map GuideSession.from_dict

/-! ### Concrete sessions used by the counterexamples and witnesses -/

/-- A concrete knowledge point. -/
def kpA : KnowledgePoint :=
  { knowledge_title := "Attention Basics"
    knowledge_summary := "Queries, keys, values."
    user_difficulty := "" }

/-- A second concrete knowledge point. -/
def kpB : KnowledgePoint :=
  { knowledge_title := "Multi-Head Attention"
    knowledge_summary := "Several heads in parallel."
    user_difficulty := "" }

/-- A concrete learning record. -/
def recA : LearningRecord :=
  { id := "r1", type := "qa", title := "Attention"
    user_query := "What is attention?", output := "Attention weighs values." }

/-- Extraction oracle that always fails to find structured data. -/
def exNone : String → Option JsonValue := fun _ => none

/-- Extraction oracle returning a mapping that carries only a title. -/
def exTitleOnly : String → Option JsonValue :=
  fun _ => some (.obj [("title", .str "T")])

/-- Chat gateway oracle that always answers. -/
def llmAnswer : String → Except String String := fun _ => .ok "An answer."

/-- A freshly created single-point session. -/
def sInit : GuideSession :=
  initialSession "s1" "nb1" "My Notebook" 0.0 [kpA]

/-- The session after `start`. -/
def sLearn : GuideSession :=
  resultState (startOp (.ok "resp") exNone 1.0 sInit) sInit

/-- The session after its single point is completed by `next`. -/
def sDone : GuideSession :=
  resultState (nextOp (.ok "sum") (.ok "resp") exNone 2.0 sLearn) sLearn

/-- The session after one further `next` call on the completed session. -/
def sOver : GuideSession :=
  resultState (nextOp (.ok "sum") (.ok "resp") exNone 3.0 sDone) sDone

example : sLearn.status = .learning := by decide
example : sLearn.current_index = 0 := by decide
example : sLearn.chat_history.length = 1 := by decide
example : sDone.status = .completed := by decide
example : sDone.current_index = 1 := by decide
example : sOver.status = .completed := by decide
example : sOver.current_index = 2 := by decide

/-- The session evolution performed by one `next` call. -/
def nextStep (sumLlm intLlm : Except String String)
    (extract : String → Option JsonValue) (now : Float) (s : GuideSession) :
    GuideSession :=
  resultState (nextOp sumLlm intLlm extract now s) s

/-- Iterated `next` calls, with per-call gateway oracles. -/
def iterNext (sums ints : Nat → Except String String)
    (exs : Nat → String → Option JsonValue) (nows : Nat → Float) :
    Nat → GuideSession → GuideSession
  | 0, s => s
  | k + 1, s =>
    iterNext sums ints exs nows k
      (nextStep (sums k) (ints k) (exs k) (nows k) s)

/-- Position of a status along the lifecycle order. -/
def statusRank : SessionStatus → Nat
  | .initialized => 0
  | .learning => 1
  | .completed => 2

/-- A user message tagged with a knowledge-point index. -/
def msgTag (i : Nat) (c : String) : GuideMessage :=
  { role := .user, content := c, timestamp := 0.0, knowledge_index := some i }

/-- A learning session whose log is tagged with indices `[0, 0, 1, 1, 2]`,
currently at knowledge point 1. -/
def sTagged : GuideSession :=
  { session_id := "s9"
    notebook_id := "nb9"
    notebook_name := "Tagged Notebook"
    created_at := 0.0
    status := .learning
    knowledge_points := [kpA, kpB, kpA]
    current_index := 1
    chat_history := [msgTag 0 "a", msgTag 0 "b", msgTag 1 "c", msgTag 1 "d",
      msgTag 2 "e"]
    current_html := ""
    summary_markdown := "" }

/-- A freshly created two-point session. -/
def sTwo : GuideSession :=
  initialSession "s3" "nb3" "Another Notebook" 0.0 [kpA, kpB]

/-- Ten identical tagged messages. -/
def tenMsgs : List GuideMessage := List.replicate 10 (msgTag 0 "x")

/-- Three older messages preceding a full history window. -/
def padMsgs : List GuideMessage := [msgTag 0 "p1", msgTag 0 "p2", msgTag 0 "p3"]

/-- Whether an operation result is a propagated Python exception rather than
a returned envelope. -/
def opRaised {α : Type} (r : Except PyErr α) : Bool :=
  match r with
  | .ok _ => false
  | .error _ => true

/-! ### Lemmas about dict lookup, backfill and payload normalization -/

theorem lookup_setKey (o : JsonObj) (k : String) (v : JsonValue)
    (key : String) :
    lookup (setKey o k v) key = if k = key then some v else lookup o key := by
  induction o with
  | nil => simp [setKey, lookup]
  | cons hd tl ih =>
    obtain ⟨k', w⟩ := hd
    by_cases h1 : k' = k
    · subst h1
      by_cases h2 : k' = key <;> simp [setKey, lookup, h2]
    · by_cases h2 : k' = key
      · subst h2
        have h3 : ¬ k = k' := fun hh => h1 hh.symm
        simp [setKey, lookup, h1, h3]
      · simp [setKey, lookup, h1, h2, ih]

theorem lookup_backfill (fb : JsonObj) (keys : List String) (p : JsonObj)
    (key : String) :
    lookup (backfill fb keys p) key =
      if (lookup p key).isSome then lookup p key
      else if key ∈ keys then some ((lookup fb key).getD .null) else none := by
  induction keys generalizing p with
  | nil =>
    cases h : lookup p key <;> simp [backfill, h]
  | cons k rest ih =>
    have hstep : backfill fb (k :: rest) p =
        backfill fb rest
          (if (lookup p k).isSome then p
           else setKey p k ((lookup fb k).getD .null)) := by
      simp [backfill]
    rw [hstep]
    by_cases hk : (lookup p k).isSome
    · rw [if_pos hk, ih]
      by_cases hkey : (lookup p key).isSome
      · simp [hkey]
      · have hne : key ≠ k := by
          intro h; rw [h] at hkey; exact hkey hk
        simp [hkey, hne]
    · rw [if_neg hk, ih, lookup_setKey]
      by_cases hkey : k = key
      · subst hkey
        have hnone : lookup p k = none := by
          cases h : lookup p k
          · rfl
          · rw [h] at hk; exact absurd rfl hk
        simp [hnone]
      · have hkey' : ¬ key = k := fun hh => hkey hh.symm
        simp [hkey, hkey']

theorem lookup_fallback_not_required (kp : KnowledgePoint) (key : String)
    (h : key ∉ requiredKeys) :
    lookup (payloadFromKnowledge kp) key = none := by
  simp only [requiredKeys, List.mem_cons, List.not_mem_nil, or_false,
    not_or] at h
  obtain ⟨h1, h2, h3, h4, h5, h6, h7⟩ := h
  simp [payloadFromKnowledge, lookup, Ne.symm h1, Ne.symm h2, Ne.symm h3,
    Ne.symm h4, Ne.symm h5, Ne.symm h6, Ne.symm h7]

theorem lookup_fallback_key_points (kp : KnowledgePoint) :
    lookup (payloadFromKnowledge kp) "key_points" =
      some (.arr [
        .str "Summarize the core idea in your own words.",
        .str "Identify the key inputs, outputs, and assumptions.",
        .str ("Common difficulty: " ++
          (if kp.user_difficulty = "" then "Beginner"
           else kp.user_difficulty))]) := rfl

theorem lookup_fallback_isSome (kp : KnowledgePoint) (key : String)
    (h : key ∈ requiredKeys) :
    (lookup (payloadFromKnowledge kp) key).isSome = true := by
  simp only [requiredKeys, List.mem_cons, List.not_mem_nil, or_false] at h
  rcases h with rfl | rfl | rfl | rfl | rfl | rfl | rfl <;> rfl

theorem some_getD_of_isSome (o : Option JsonValue)
    (h : o.isSome = true) : some (o.getD .null) = o := by
  cases o
  · exact absurd h (by simp)
  · rfl

theorem lookup_normalizePayload_obj (kvs : JsonObj) (kp : KnowledgePoint)
    (key : String) :
    lookup (normalizePayload (some (.obj kvs)) kp) key =
      if key = "key_points" then
        match lookup kvs "key_points" with
        | some v =>
          if isJsonArr v then some v
          else lookup (payloadFromKnowledge kp) "key_points"
        | none => lookup (payloadFromKnowledge kp) "key_points"
      else
        match lookup kvs key with
        | some v => some v
        | none =>
          if key ∈ requiredKeys then lookup (payloadFromKnowledge kp) key
          else none := by
  by_cases hkvs : kvs.isEmpty
  · have hkv : kvs = [] := by simpa [List.isEmpty_iff] using hkvs
    subst hkv
    have hfb : normalizePayload (some (.obj [])) kp = payloadFromKnowledge kp := rfl
    rw [hfb]
    by_cases hkey : key = "key_points"
    · subst hkey; rfl
    · rw [if_neg hkey]
      have hmatch : (match lookup ([] : JsonObj) key with
          | some v => some v
          | none =>
            if key ∈ requiredKeys then lookup (payloadFromKnowledge kp) key
            else none) =
          (if key ∈ requiredKeys then lookup (payloadFromKnowledge kp) key
           else none) := rfl
      rw [hmatch]
      by_cases hmem : key ∈ requiredKeys
      · rw [if_pos hmem]
      · rw [if_neg hmem, lookup_fallback_not_required kp key hmem]
  · have hne : kvs.isEmpty = false := by simpa using hkvs
    have hdef : normalizePayload (some (.obj kvs)) kp =
        (match lookup (backfill (payloadFromKnowledge kp) requiredKeys kvs)
            "key_points" with
         | some (.arr _) => backfill (payloadFromKnowledge kp) requiredKeys kvs
         | _ =>
           setKey (backfill (payloadFromKnowledge kp) requiredKeys kvs)
             "key_points"
             ((lookup (payloadFromKnowledge kp) "key_points").getD .null)) := by
      simp [normalizePayload, hne]
    have hmemkp : "key_points" ∈ requiredKeys := by decide
    have hp1 : ∀ q, lookup (backfill (payloadFromKnowledge kp) requiredKeys kvs) q =
        if (lookup kvs q).isSome then lookup kvs q
        else if q ∈ requiredKeys then
          some ((lookup (payloadFromKnowledge kp) q).getD .null)
        else none :=
      fun q => lookup_backfill (payloadFromKnowledge kp) requiredKeys kvs q
    by_cases hkey : key = "key_points"
    · subst hkey
      cases hv : lookup kvs "key_points" with
      | some v =>
        have hp1kp : lookup (backfill (payloadFromKnowledge kp) requiredKeys kvs)
            "key_points" = some v := by
          rw [hp1]; simp [hv]
        cases v with
        | arr xs =>
          rw [hdef, hp1kp]
          simp [hp1kp, hv, isJsonArr]
        | null =>
          rw [hdef, hp1kp]
          simp [lookup_setKey, hv, isJsonArr, lookup_fallback_key_points]
        | bool b =>
          rw [hdef, hp1kp]
          simp [lookup_setKey, hv, isJsonArr, lookup_fallback_key_points]
        | num n =>
          rw [hdef, hp1kp]
          simp [lookup_setKey, hv, isJsonArr, lookup_fallback_key_points]
        | str t =>
          rw [hdef, hp1kp]
          simp [lookup_setKey, hv, isJsonArr, lookup_fallback_key_points]
        | obj o =>
          rw [hdef, hp1kp]
          simp [lookup_setKey, hv, isJsonArr, lookup_fallback_key_points]
      | none =>
        have hp1kp : lookup (backfill (payloadFromKnowledge kp) requiredKeys kvs)
            "key_points" =
            some ((lookup (payloadFromKnowledge kp) "key_points").getD .null) := by
          rw [hp1]; simp [hv, hmemkp]
        rw [hdef, hp1kp]
        rw [lookup_fallback_key_points]
        simp [hp1kp, hv, lookup_fallback_key_points]
    · have hkey' : ¬ ("key_points" = key) := fun hh => hkey hh.symm
      have hr : lookup (normalizePayload (some (.obj kvs)) kp) key =
          lookup (backfill (payloadFromKnowledge kp) requiredKeys kvs) key := by
        rw [hdef]
        cases hs : lookup (backfill (payloadFromKnowledge kp) requiredKeys kvs)
            "key_points" with
        | none => simp [lookup_setKey, hkey']
        | some v => cases v <;> simp [lookup_setKey, hkey']
      rw [hr, hp1, if_neg hkey]
      cases hv : lookup kvs key with
      | some v => simp [hv]
      | none =>
        by_cases hmem : key ∈ requiredKeys
        · simp [hv, hmem,
            some_getD_of_isSome _ (lookup_fallback_isSome kp key hmem)]
        · simp [hv, hmem]

/-- C5: for a parsed mapping, normalization backfills exactly the missing
required fields (of the seven) from the deterministic fallback while keeping
every supplied field verbatim; a supplied non-sequence `key_points` is
replaced by the fallback's; a missing or non-mapping parsed value yields the
complete fallback payload synthesized from the knowledge point. -/
theorem c5_normalize_payload_repair (kvs : JsonObj) (kp : KnowledgePoint) :
    (∀ key, key ∈ requiredKeys →
      (lookup (normalizePayload (some (.obj kvs)) kp) key).isSome = true)
  ∧ (∀ key v, lookup kvs key = some v →
      (key = "key_points" → isJsonArr v = true) →
      lookup (normalizePayload (some (.obj kvs)) kp) key = some v)
  ∧ (∀ v, lookup kvs "key_points" = some v → isJsonArr v = false →
      lookup (normalizePayload (some (.obj kvs)) kp) "key_points" =
        lookup (payloadFromKnowledge kp) "key_points")
  ∧ (∀ key, key ∈ requiredKeys → lookup kvs key = none →
      lookup (normalizePayload (some (.obj kvs)) kp) key =
        lookup (payloadFromKnowledge kp) key)
  ∧ (∀ key, key ∉ requiredKeys → lookup kvs key = none →
      lookup (normalizePayload (some (.obj kvs)) kp) key = none)
  ∧ normalizePayload none kp = payloadFromKnowledge kp
  ∧ (∀ v, isJsonObj v = false →
      normalizePayload (some v) kp = payloadFromKnowledge kp) := by
  refine ⟨?_, ?_, ?_, ?_, ?_, rfl, ?_⟩
  · intro key hmem
    rw [lookup_normalizePayload_obj]
    by_cases hkey : key = "key_points"
    · subst hkey
      rw [if_pos rfl]
      cases hv : lookup kvs "key_points" with
      | some v =>
        by_cases harr : isJsonArr v = true
        · simp [harr]
        · simp only [harr, if_false]
          exact lookup_fallback_isSome kp "key_points" (by decide)
      | none => exact lookup_fallback_isSome kp "key_points" (by decide)
    · rw [if_neg hkey]
      cases hv : lookup kvs key with
      | some v => simp
      | none =>
        rw [if_pos hmem]
        exact lookup_fallback_isSome kp key hmem
  · intro key v hv himp
    rw [lookup_normalizePayload_obj]
    by_cases hkey : key = "key_points"
    · subst hkey
      rw [if_pos rfl, hv]
      simp [himp rfl]
    · rw [if_neg hkey, hv]
  · intro v hv harr
    rw [lookup_normalizePayload_obj, if_pos rfl, hv]
    simp [harr]
  · intro key hmem hv
    rw [lookup_normalizePayload_obj]
    by_cases hkey : key = "key_points"
    · subst hkey
      rw [if_pos rfl, hv]
    · rw [if_neg hkey, hv]
      simp [hmem]
  · intro key hmem hv
    have hkey : ¬ key = "key_points" := by
      intro h; subst h; exact hmem (by decide)
    rw [lookup_normalizePayload_obj, if_neg hkey, hv]
    simp [hmem]
  · intro v hv
    cases v with
    | obj kvs' => simp [isJsonObj] at hv
    | null => rfl
    | bool b => rfl
    | num n => rfl
    | str t => rfl
    | arr xs => rfl

/-- Witness for C5 at a mapping supplying only `title`: all seven fields are
present, the supplied `title` survives verbatim, and `concept` is backfilled
from the fallback. -/
theorem c5_normalize_payload_repair_witness :
    (lookup (normalizePayload (some (.obj [("title", JsonValue.str "T")])) kpA)
      "concept").isSome = true
  ∧ lookup (normalizePayload (some (.obj [("title", JsonValue.str "T")])) kpA)
      "title" = some (JsonValue.str "T")
  ∧ lookup (normalizePayload (some (.obj [("title", JsonValue.str "T")])) kpA)
      "concept" = lookup (payloadFromKnowledge kpA) "concept" := by
  refine ⟨?_, ?_, ?_⟩
  · exact (c5_normalize_payload_repair [("title", JsonValue.str "T")] kpA).1
      "concept" (by decide)
  · exact (c5_normalize_payload_repair [("title", JsonValue.str "T")] kpA).2.1
      "title" (JsonValue.str "T") rfl
      (by intro h; exact absurd h (by decide))
  · exact (c5_normalize_payload_repair
      [("title", JsonValue.str "T")] kpA).2.2.2.1 "concept" (by decide) rfl

/-- C6 counterexample: text extracted to a mapping carrying only `title` is
repaired by backfilling (here `concept` is taken from the fallback), yet the
returned fallback flag is `false` — the flag does not report field-level
repair. -/
theorem c6_fallback_flag_counterexample :
    (interactiveProcess (Except.ok "raw model text") exTitleOnly kpA).is_fallback
      = false
  ∧ lookup (normalizePayload (exTitleOnly "raw model text") kpA) "concept" =
      lookup (payloadFromKnowledge kpA) "concept"
  ∧ lookup [("title", JsonValue.str "T")] "concept" = none :=
  ⟨rfl, rfl, rfl⟩

/-- C6 (amended): the fallback flag is `true` iff no structured payload was
extracted at all (completion failure or extraction failure), and exactly then
the artifact is rendered from the complete deterministic fallback; when a
mapping is extracted the flag is `false` even if missing fields were repaired
by backfill. -/
theorem c6_fallback_flag (llm : Except String String)
    (extract : String → Option JsonValue) (kp : KnowledgePoint) :
    ((interactiveProcess llm extract kp).is_fallback = true ↔
      ∀ t, llm = Except.ok t → extract t = none)
  ∧ ((interactiveProcess llm extract kp).is_fallback = true →
      (interactiveProcess llm extract kp).html =
        renderHtml (payloadFromKnowledge kp))
  ∧ (∀ t kvs, llm = Except.ok t → extract t = some (.obj kvs) →
      (interactiveProcess llm extract kp).is_fallback = false) := by
  cases llm with
  | ok t0 =>
    refine ⟨?_, ?_, ?_⟩
    · simp only [interactiveProcess, Option.isNone_iff_eq_none]
      constructor
      · intro h t ht
        injection ht with h2
        subst h2
        exact h
      · intro h
        exact h t0 rfl
    · intro h
      have hnone : extract t0 = none := by
        simpa [interactiveProcess, Option.isNone_iff_eq_none] using h
      simp [interactiveProcess, hnone, normalizePayload]
    · intro t kvs ht hex
      injection ht with h2
      subst h2
      simp [interactiveProcess, hex]
  | error e =>
    refine ⟨?_, ?_, ?_⟩
    · simp [interactiveProcess]
    · intro _
      simp [interactiveProcess, normalizePayload]
    · intro t kvs ht
      cases ht

/-- Witness for the amended C6: a failed completion yields the rendered
fallback with the flag set; an extracted mapping yields flag `false`. -/
theorem c6_fallback_flag_witness :
    (interactiveProcess (Except.error "boom") exNone kpA).html =
      renderHtml (payloadFromKnowledge kpA)
  ∧ (interactiveProcess (Except.ok "raw model text") exTitleOnly
      kpA).is_fallback = false := by
  constructor
  · exact (c6_fallback_flag (Except.error "boom") exNone kpA).2.1 rfl
  · exact (c6_fallback_flag (Except.ok "raw model text") exTitleOnly kpA).2.2
      "raw model text" [("title", JsonValue.str "T")] rfl rfl

/-! ### Serialization round trip -/

theorem kp_roundtrip (kp : KnowledgePoint) :
    KnowledgePoint.from_dict (KnowledgePoint.to_dict kp) = kp := rfl

theorem msg_roundtrip (m : GuideMessage) :
    GuideMessage.from_dict (GuideMessage.to_dict m) = m := rfl

theorem kp_list_roundtrip (l : List KnowledgePoint) :
    (l.map KnowledgePoint.to_dict).map KnowledgePoint.from_dict = l := by
  induction l with
  | nil => rfl
  | cons a tl ih => simp [ih, kp_roundtrip]

theorem msg_list_roundtrip (l : List GuideMessage) :
    (l.map GuideMessage.to_dict).map GuideMessage.from_dict = l := by
  induction l with
  | nil => rfl
  | cons a tl ih => simp [ih, msg_roundtrip]

theorem storeFind_storeSet_self (st : StoreState) (key : String)
    (v : SessionDict) : storeFind (storeSet st key v) key = some v := by
  induction st with
  | nil => simp [storeSet, storeFind]
  | cons hd tl ih =>
    obtain ⟨k, w⟩ := hd
    by_cases h : k = key <;> simp [storeSet, storeFind, h, ih]

theorem session_from_to (s : GuideSession) :
    GuideSession.from_dict (GuideSession.to_dict s) = s := by
  cases s with
  | mk sid nid nname t status points idx hist html summary =>
    simp only [GuideSession.to_dict, GuideSession.from_dict,
      kp_list_roundtrip, msg_list_roundtrip]
    by_cases hsum : summary = ""
    · subst hsum; simp
    · simp [hsum]

/-- C9: serializing any session (any status, cursor, curriculum, log,
artifact, summary) and deserializing the result restores every field; in
particular saving to the store and loading by the session's id returns an
equal session. -/
theorem c9_session_roundtrip (st : StoreState) (s : GuideSession) :
    GuideSession.from_dict (GuideSession.to_dict s) = s
  ∧ FileSessionStore.load (FileSessionStore.save st s) s.session_id = some s := by
  refine ⟨session_from_to s, ?_⟩
  unfold FileSessionStore.load FileSessionStore.save
  rw [storeFind_storeSet_self]
  simp [session_from_to s]

/-! ### Per-operation state lemmas -/

theorem startOp_empty_state (i : Except String String)
    (e : String → Option JsonValue) (now : Float) (s : GuideSession)
    (h : s.knowledge_points = []) :
    resultState (startOp i e now s) s = s := by
  have h0 : s.knowledge_points.length = 0 := by simp [h]
  unfold startOp
  simp [learningState, h0, resultState]

theorem startOp_fields (i : Except String String)
    (e : String → Option JsonValue) (now : Float) (s : GuideSession)
    (h : s.knowledge_points ≠ []) :
    (resultState (startOp i e now s) s).status = .learning ∧
    (resultState (startOp i e now s) s).current_index = 0 ∧
    (resultState (startOp i e now s) s).knowledge_points =
      s.knowledge_points ∧
    (resultState (startOp i e now s) s).chat_history.length =
      s.chat_history.length + 1 ∧
    opSuccess (startOp i e now s) = true := by
  have h0 : ¬ s.knowledge_points.length = 0 := by
    simpa [List.length_eq_zero] using h
  have h1 : ¬ s.knowledge_points.length ≤ 0 := by omega
  unfold startOp
  simp only [learningState, if_neg h0, dif_neg h1]
  simp [resultState, opSuccess]

theorem nextOp_empty_state (sl il : Except String String)
    (e : String → Option JsonValue) (now : Float) (s : GuideSession)
    (h : s.knowledge_points = []) :
    nextStep sl il e now s = s := by
  have h0 : s.knowledge_points.length = 0 := by simp [h]
  unfold nextStep nextOp
  simp [learningState, h0, resultState]

theorem nextOp_completing (sl il : Except String String)
    (e : String → Option JsonValue) (now : Float) (s : GuideSession)
    (h0 : s.knowledge_points ≠ [])
    (h : s.knowledge_points.length ≤ s.current_index + 1) :
    (nextStep sl il e now s).status = .completed ∧
    (nextStep sl il e now s).current_index = s.current_index + 1 ∧
    (nextStep sl il e now s).knowledge_points = s.knowledge_points ∧
    opSuccess (nextOp sl il e now s) = true := by
  have hlen0 : ¬ s.knowledge_points.length = 0 := by
    simpa [List.length_eq_zero] using h0
  unfold nextStep nextOp
  simp only [learningState, if_neg hlen0, dif_pos h]
  simp [resultState, opSuccess]

theorem nextOp_advancing (sl il : Except String String)
    (e : String → Option JsonValue) (now : Float) (s : GuideSession)
    (h : s.current_index + 1 < s.knowledge_points.length) :
    (nextStep sl il e now s).status = s.status ∧
    (nextStep sl il e now s).current_index = s.current_index + 1 ∧
    (nextStep sl il e now s).knowledge_points = s.knowledge_points ∧
    (nextStep sl il e now s).summary_markdown = s.summary_markdown ∧
    (nextStep sl il e now s).session_id = s.session_id ∧
    (nextStep sl il e now s).chat_history.length =
      s.chat_history.length + 1 ∧
    (∀ k, s.knowledge_points[s.current_index + 1]? = some k →
      (nextStep sl il e now s).current_html =
        injectSessionId (interactiveProcess il e k).html s.session_id) ∧
    opSuccess (nextOp sl il e now s) = true := by
  have hlen0 : ¬ s.knowledge_points.length = 0 := by omega
  have h2 : ¬ s.knowledge_points.length ≤ s.current_index + 1 := by omega
  unfold nextStep nextOp
  simp only [learningState, if_neg hlen0, dif_neg h2]
  refine ⟨by simp [resultState], by simp [resultState], by simp [resultState],
    by simp [resultState], by simp [resultState], by simp [resultState],
    ?_, by simp [opSuccess]⟩
  intro k hk
  have hget : s.knowledge_points[s.current_index + 1]? =
      some (s.knowledge_points.get ⟨s.current_index + 1, by omega⟩) :=
    List.getElem?_eq_getElem (by omega)
  rw [hget] at hk
  injection hk with hk2
  subst hk2
  simp [resultState]

theorem chatOp_frame (llm : String → Except String String) (now : Float)
    (q : String) (s : GuideSession) :
    (resultState (chatOp llm now q s) s).status = s.status ∧
    (resultState (chatOp llm now q s) s).current_index = s.current_index ∧
    (resultState (chatOp llm now q s) s).knowledge_points =
      s.knowledge_points ∧
    (resultState (chatOp llm now q s) s).current_html = s.current_html ∧
    (resultState (chatOp llm now q s) s).summary_markdown =
      s.summary_markdown := by
  unfold chatOp
  by_cases hst : s.status = .learning
  · rw [if_neg (by simp [hst])]
    cases hk : s.knowledge_points[s.current_index]? with
    | none => simp [hk, resultState]
    | some k => simp [hk, resultState]
  · rw [if_pos hst]
    simp [resultState]

theorem fixOp_frame (i : Except String String)
    (e : String → Option JsonValue) (bug : String) (s : GuideSession) :
    (resultState (fixOp i e bug s) s).status = s.status ∧
    (resultState (fixOp i e bug s) s).current_index = s.current_index ∧
    (resultState (fixOp i e bug s) s).knowledge_points =
      s.knowledge_points ∧
    (resultState (fixOp i e bug s) s).chat_history = s.chat_history ∧
    (resultState (fixOp i e bug s) s).summary_markdown =
      s.summary_markdown := by
  unfold fixOp
  cases hk : s.knowledge_points[s.current_index]? with
  | none => simp [hk, resultState]
  | some k =>
    simp only [hk]
    split <;> simp [resultState]

/-! ### Reachability invariant and lifecycle claims -/

theorem reachable_invariant (s : GuideSession) (h : Reachable s) :
    s.knowledge_points ≠ [] ∧
    (s.status = .completed ↔
      s.knowledge_points.length ≤ s.current_index) := by
  induction h with
  | create sid nid nname t points hp =>
    refine ⟨hp, ?_⟩
    constructor
    · intro hc
      exact absurd hc (by simp [initialSession])
    · intro hle
      simp only [initialSession] at hle
      exact absurd (List.length_eq_zero.mp (Nat.le_zero.mp hle)) hp
  | step_start s i e now hr ih =>
    by_cases hemp : s.knowledge_points = []
    · exact absurd hemp ih.1
    · obtain ⟨hst, hidx, hkp, _, _⟩ := startOp_fields i e now s hemp
      refine ⟨by rw [hkp]; exact ih.1, ?_⟩
      rw [hst, hidx, hkp]
      constructor
      · intro hc
        exact absurd hc (by decide)
      · intro hle
        exact absurd (List.length_eq_zero.mp (Nat.le_zero.mp hle)) ih.1
  | step_next s sl il e now hr ih =>
    by_cases hemp : s.knowledge_points = []
    · exact absurd hemp ih.1
    · by_cases hc : s.knowledge_points.length ≤ s.current_index + 1
      · obtain ⟨hst, hidx, hkp, _⟩ := nextOp_completing sl il e now s hemp hc
        refine ⟨?_, ?_⟩
        · show (nextStep sl il e now s).knowledge_points ≠ []
          rw [hkp]; exact ih.1
        · show (nextStep sl il e now s).status = .completed ↔
            (nextStep sl il e now s).knowledge_points.length ≤
              (nextStep sl il e now s).current_index
          rw [hst, hidx, hkp]
          simp [hc]
      · have hlt : s.current_index + 1 < s.knowledge_points.length :=
          Nat.lt_of_not_le hc
        obtain ⟨hst, hidx, hkp, _, _, _, _, _⟩ :=
          nextOp_advancing sl il e now s hlt
        refine ⟨?_, ?_⟩
        · show (nextStep sl il e now s).knowledge_points ≠ []
          rw [hkp]; exact ih.1
        · show (nextStep sl il e now s).status = .completed ↔
            (nextStep sl il e now s).knowledge_points.length ≤
              (nextStep sl il e now s).current_index
          rw [hst, hidx, hkp]
          constructor
          · intro hcomp
            have := ih.2.mp hcomp
            omega
          · intro hle
            omega
  | step_chat s llm now message hr ih =>
    obtain ⟨hst, hidx, hkp, _, _⟩ := chatOp_frame llm now message s
    refine ⟨by rw [hkp]; exact ih.1, ?_⟩
    rw [hst, hidx, hkp]
    exact ih.2
  | step_fix s i e bug hr ih =>
    obtain ⟨hst, hidx, hkp, _, _⟩ := fixOp_frame i e bug s
    refine ⟨by rw [hkp]; exact ih.1, ?_⟩
    rw [hst, hidx, hkp]
    exact ih.2

theorem reachable_sInit : Reachable sInit :=
  Reachable.create "s1" "nb1" "My Notebook" 0.0 [kpA] (by simp)

theorem reachable_sLearn : Reachable sLearn :=
  Reachable.step_start sInit (.ok "resp") exNone 1.0 reachable_sInit

theorem reachable_sDone : Reachable sDone :=
  Reachable.step_next sLearn (.ok "sum") (.ok "resp") exNone 2.0
    reachable_sLearn

theorem reachable_sOver : Reachable sOver :=
  Reachable.step_next sDone (.ok "sum") (.ok "resp") exNone 3.0
    reachable_sDone

/-- C1 counterexample: a reachable session (one knowledge point, completed,
then `next` called once more) whose cursor is 2 while the curriculum has
length 1 — the `[0, len]` bound and the `current_index == len` iff both
fail. -/
theorem c1_counterexample :
    Reachable sOver ∧ sOver.knowledge_points.length = 1 ∧
    sOver.current_index = 2 ∧ sOver.status = .completed ∧
    ¬ (sOver.current_index ≤ sOver.knowledge_points.length) :=
  ⟨reachable_sOver, by decide, by decide, by decide, by decide⟩

/-- C1 (amended): for every reachable session the curriculum is non-empty and
the status is `completed` iff the cursor is at or beyond the curriculum
length; while not completed the cursor stays strictly below the length (so
within `[0, len]`).  Calling `next` on an already-completed session pushes
the cursor beyond `len`, so the original two-sided bound holds only up to
completion. -/
theorem c1_cursor_invariant (s : GuideSession) (h : Reachable s) :
    0 < s.knowledge_points.length ∧
    (s.status = .completed ↔
      s.knowledge_points.length ≤ s.current_index) ∧
    (s.status ≠ .completed →
      s.current_index < s.knowledge_points.length) := by
  obtain ⟨h1, h2⟩ := reachable_invariant s h
  refine ⟨List.length_pos.mpr h1, h2, ?_⟩
  intro hnc
  by_contra hge
  exact hnc (h2.mpr (Nat.le_of_not_lt hge))

/-- Witness for the amended C1 at the concrete learning session. -/
theorem c1_cursor_invariant_witness :
    0 < sLearn.knowledge_points.length ∧
    (sLearn.status = .completed ↔
      sLearn.knowledge_points.length ≤ sLearn.current_index) ∧
    (sLearn.status ≠ .completed →
      sLearn.current_index < sLearn.knowledge_points.length) :=
  c1_cursor_invariant sLearn reachable_sLearn

/-- C2 counterexample: `start` on a reachable completed session resets its
status to `learning` — a regression out of the terminal state. -/
theorem c2_counterexample :
    Reachable sDone ∧ sDone.status = .completed ∧
    (resultState (startOp (.ok "resp") exNone 4.0 sDone) sDone).status =
      .learning :=
  ⟨reachable_sDone, by decide, by decide⟩

/-- C2 (amended): the lifecycle status is monotonically non-decreasing under
`next`, `chat` and `fix_html`, and none of those three operations leaves the
`completed` state; `start`, however, unconditionally re-enters `learning`
(resetting the cursor to 0) on any session with a non-empty curriculum,
including a completed one. -/
theorem c2_status_monotone (sl il : Except String String)
    (e : String → Option JsonValue) (now : Float)
    (llm : String → Except String String) (q bug : String)
    (s : GuideSession) :
    statusRank s.status ≤ statusRank (nextStep sl il e now s).status ∧
    (s.status = .completed → (nextStep sl il e now s).status = .completed) ∧
    (resultState (chatOp llm now q s) s).status = s.status ∧
    (resultState (fixOp il e bug s) s).status = s.status ∧
    (s.knowledge_points ≠ [] →
      (resultState (startOp il e now s) s).status = .learning) := by
  have hnext : (nextStep sl il e now s).status = s.status ∨
      (nextStep sl il e now s).status = .completed := by
    by_cases hemp : s.knowledge_points = []
    · rw [nextOp_empty_state sl il e now s hemp]
      exact Or.inl rfl
    · by_cases hc : s.knowledge_points.length ≤ s.current_index + 1
      · exact Or.inr (nextOp_completing sl il e now s hemp hc).1
      · exact Or.inl
          (nextOp_advancing sl il e now s (Nat.lt_of_not_le hc)).1
  refine ⟨?_, ?_, (chatOp_frame llm now q s).1, (fixOp_frame il e bug s).1,
    fun hne => (startOp_fields il e now s hne).1⟩
  · rcases hnext with h | h
    · rw [h]
    · rw [h]
      cases s.status <;> simp [statusRank]
  · intro hcomp
    rcases hnext with h | h
    · rw [h, hcomp]
    · exact h

/-- Witness for the amended C2 at the concrete completed session. -/
theorem c2_status_monotone_witness :
    statusRank sDone.status ≤
      statusRank (nextStep (.ok "s") (.ok "r") exNone 5.0 sDone).status ∧
    (nextStep (.ok "s") (.ok "r") exNone 5.0 sDone).status = .completed ∧
    (resultState (startOp (.ok "r") exNone 5.0 sDone) sDone).status =
      .learning := by
  have h := c2_status_monotone (.ok "s") (.ok "r") exNone 5.0 llmAnswer
    "q" "bug" sDone
  exact ⟨h.1, h.2.1 (by decide), h.2.2.2.2 (by decide)⟩

/-! ### Completion count, next-frame and exception-safety claims -/

theorem iterNext_completes (sums ints : Nat → Except String String)
    (exs : Nat → String → Option JsonValue) (nows : Nat → Float) :
    ∀ (k : Nat) (s : GuideSession), 1 ≤ k →
      s.knowledge_points.length = s.current_index + k →
      (iterNext sums ints exs nows k s).status = .completed ∧
      (iterNext sums ints exs nows k s).current_index =
        s.current_index + k := by
  intro k
  induction k with
  | zero => intro s h; exact absurd h (by omega)
  | succ k ih =>
    intro s h1 hlen
    by_cases hk0 : k = 0
    · subst hk0
      have hemp : s.knowledge_points ≠ [] := by
        intro hh
        rw [hh] at hlen
        simp at hlen
      have hcomp : s.knowledge_points.length ≤ s.current_index + 1 := by
        omega
      have hres :=
        nextOp_completing (sums 0) (ints 0) (exs 0) (nows 0) s hemp hcomp
      exact ⟨hres.1, hres.2.1⟩
    · have hk1 : 1 ≤ k := Nat.one_le_iff_ne_zero.mpr hk0
      have hlt : s.current_index + 1 < s.knowledge_points.length := by omega
      obtain ⟨hst, hidx, hkp, _, _, _, _, _⟩ :=
        nextOp_advancing (sums k) (ints k) (exs k) (nows k) s hlt
      have hlen' :
          (nextStep (sums k) (ints k) (exs k) (nows k) s).knowledge_points.length =
          (nextStep (sums k) (ints k) (exs k) (nows k) s).current_index + k := by
        rw [hkp, hidx]
        omega
      have hrec := ih (nextStep (sums k) (ints k) (exs k) (nows k) s) hk1 hlen'
      have hdef : iterNext sums ints exs nows (k + 1) s =
          iterNext sums ints exs nows k
            (nextStep (sums k) (ints k) (exs k) (nows k) s) := rfl
      rw [hdef]
      refine ⟨hrec.1, ?_⟩
      have h2 := hrec.2
      rw [hidx] at h2
      omega

/-- C4: from `current_index = 0` over a curriculum of length `n ≥ 1`, calling
`next` exactly `n` times (under arbitrary per-call gateway behaviour) yields
status `completed` with `current_index = n`. -/
theorem c4_next_n_times (sums ints : Nat → Except String String)
    (exs : Nat → String → Option JsonValue) (nows : Nat → Float)
    (s : GuideSession) (n : Nat) (hn : 1 ≤ n)
    (hlen : s.knowledge_points.length = n) (hidx : s.current_index = 0) :
    (iterNext sums ints exs nows n s).status = .completed ∧
    (iterNext sums ints exs nows n s).current_index = n := by
  have h := iterNext_completes sums ints exs nows n s hn (by omega)
  exact ⟨h.1, by omega⟩

/-- Witness for C4 on the concrete single-point session (`n = 1`). -/
theorem c4_next_n_times_witness :
    (iterNext (fun _ => .ok "s") (fun _ => .ok "r") (fun _ => exNone)
      (fun _ => 0.0) 1 sInit).status = .completed ∧
    (iterNext (fun _ => .ok "s") (fun _ => .ok "r") (fun _ => exNone)
      (fun _ => 0.0) 1 sInit).current_index = 1 :=
  c4_next_n_times (fun _ => .ok "s") (fun _ => .ok "r") (fun _ => exNone)
    (fun _ => 0.0) sInit 1 (by decide) (by decide) (by decide)

/-- C10: a non-completing `next` (new index still below the curriculum
length) leaves the status unchanged, advances the cursor by one and replaces
the artifact; `next` otherwise only ever writes `completed`, never
`learning` — so among the operations only `start` moves a session into
`learning`. -/
theorem c10_next_frame (sl il : Except String String)
    (e : String → Option JsonValue) (now : Float) (s : GuideSession) :
    (s.current_index + 1 < s.knowledge_points.length →
      (nextStep sl il e now s).status = s.status ∧
      (nextStep sl il e now s).current_index = s.current_index + 1 ∧
      (nextStep sl il e now s).knowledge_points = s.knowledge_points ∧
      (nextStep sl il e now s).summary_markdown = s.summary_markdown ∧
      (∀ k, s.knowledge_points[s.current_index + 1]? = some k →
        (nextStep sl il e now s).current_html =
          injectSessionId (interactiveProcess il e k).html s.session_id))
  ∧ ((nextStep sl il e now s).status = s.status ∨
      (nextStep sl il e now s).status = .completed)
  ∧ ((nextStep sl il e now s).status = .learning →
      s.status = .learning) := by
  have hcases : (nextStep sl il e now s).status = s.status ∨
      (nextStep sl il e now s).status = .completed := by
    by_cases hemp : s.knowledge_points = []
    · rw [nextOp_empty_state sl il e now s hemp]
      exact Or.inl rfl
    · by_cases hc : s.knowledge_points.length ≤ s.current_index + 1
      · exact Or.inr (nextOp_completing sl il e now s hemp hc).1
      · exact Or.inl
          (nextOp_advancing sl il e now s (Nat.lt_of_not_le hc)).1
  refine ⟨?_, hcases, ?_⟩
  · intro hlt
    obtain ⟨hst, hidx, hkp, hsum, _, _, hhtml, _⟩ :=
      nextOp_advancing sl il e now s hlt
    exact ⟨hst, hidx, hkp, hsum, hhtml⟩
  · intro hlearn
    rcases hcases with h | h
    · rw [← h]; exact hlearn
    · rw [hlearn] at h
      exact absurd h (by decide)

/-- Witness for C10: `next` on the two-point `initialized` session advances
the cursor, stays `initialized`, and installs the artifact for point 1. -/
theorem c10_next_frame_witness :
    (nextStep (.ok "s") (.ok "r") exNone 6.0 sTwo).status = .initialized ∧
    (nextStep (.ok "s") (.ok "r") exNone 6.0 sTwo).current_index = 1 ∧
    (nextStep (.ok "s") (.ok "r") exNone 6.0 sTwo).current_html =
      injectSessionId (interactiveProcess (.ok "r") exNone kpB).html "s3" := by
  have h := (c10_next_frame (.ok "s") (.ok "r") exNone 6.0 sTwo).1 (by decide)
  exact ⟨h.1, h.2.1, h.2.2.2.2 kpB (by decide)⟩

/-- C3 (amended): `start` and `next` always return an envelope; `chat` never
raises on a reachable session; `fix_html` on a reachable session raises an
index error exactly when the session is `completed`; `create` propagates an
exception exactly when the record set is non-empty and both the
structured-mode and the free-form completion calls fail. -/
theorem c3_envelope_no_raise (i sl il llmS llmF : Except String String)
    (e parse : String → Option JsonValue)
    (llm : String → Except String String) (now : Float) (q bug : String)
    (sid nid nname : String) (t : Float) (records : List LearningRecord)
    (s : GuideSession) :
    opRaised (startOp i e now s) = false
  ∧ opRaised (nextOp sl il e now s) = false
  ∧ (Reachable s → opRaised (chatOp llm now q s) = false)
  ∧ (Reachable s →
      (opRaised (fixOp il e bug s) = true ↔ s.status = .completed))
  ∧ (opRaised (createSession llmS llmF parse sid nid nname t records) =
        true ↔
      records ≠ [] ∧ (∃ e1, llmS = .error e1) ∧
        (∃ e2, llmF = .error e2)) := by
  refine ⟨?_, ?_, ?_, ?_, ?_⟩
  · by_cases h0 : s.knowledge_points.length = 0
    · simp [startOp, learningState, h0, opRaised]
    · have h1 : ¬ s.knowledge_points.length ≤ 0 := by omega
      unfold startOp
      simp only [learningState, if_neg h0, dif_neg h1]
      simp [opRaised]
  · by_cases h0 : s.knowledge_points.length = 0
    · simp [nextOp, learningState, h0, opRaised]
    · by_cases hc : s.knowledge_points.length ≤ s.current_index + 1
      · unfold nextOp
        simp only [learningState, if_neg h0, dif_pos hc]
        simp [opRaised]
      · unfold nextOp
        simp only [learningState, if_neg h0, dif_neg hc]
        simp [opRaised]
  · intro hr
    by_cases hst : s.status = .learning
    · have hinv := reachable_invariant s hr
      have hlt : s.current_index < s.knowledge_points.length := by
        by_contra hge
        have hcomp := hinv.2.mpr (Nat.le_of_not_lt hge)
        rw [hst] at hcomp
        exact absurd hcomp (by decide)
      have hk : s.knowledge_points[s.current_index]? =
          some (s.knowledge_points.get ⟨s.current_index, hlt⟩) :=
        List.getElem?_eq_getElem hlt
      unfold chatOp
      rw [if_neg (by simp [hst])]
      simp [hk, opRaised]
    · unfold chatOp
      rw [if_pos hst]
      simp [opRaised]
  · intro hr
    have hinv := reachable_invariant s hr
    constructor
    · intro hraised
      by_contra hnc
      have hlt : s.current_index < s.knowledge_points.length := by
        by_contra hge
        exact hnc (hinv.2.mpr (Nat.le_of_not_lt hge))
      have hk : s.knowledge_points[s.current_index]? =
          some (s.knowledge_points.get ⟨s.current_index, hlt⟩) :=
        List.getElem?_eq_getElem hlt
      have hfalse : opRaised (fixOp il e bug s) = false := by
        unfold fixOp
        rw [hk]
        dsimp only
        split <;> rfl
      rw [hfalse] at hraised
      exact absurd hraised (by decide)
    · intro hcomp
      have hge : s.knowledge_points.length ≤ s.current_index :=
        hinv.2.mp hcomp
      have hk : s.knowledge_points[s.current_index]? = none :=
        List.getElem?_eq_none hge
      unfold fixOp
      rw [hk]
      simp [opRaised]
  · by_cases hrec : records.isEmpty
    · have hrecnil : records = [] := by simpa [List.isEmpty_iff] using hrec
      simp [createSession, locateProcess, hrec, opRaised, hrecnil]
    · have hrecne : records ≠ [] := by
        simpa [List.isEmpty_iff] using hrec
      cases llmS with
      | ok t0 =>
        unfold createSession locateProcess
        rw [if_neg hrec]
        cases hp : parse t0 with
        | none => simp [opRaised, hp]
        | some v =>
          by_cases hpts : pointsFromParsed v = [] <;>
            simp [opRaised, hp, hpts, List.isEmpty_iff]
      | error e1 =>
        cases llmF with
        | ok t1 =>
          unfold createSession locateProcess
          rw [if_neg hrec]
          cases hp : parse t1 with
          | none => simp [opRaised, hp]
          | some v =>
            by_cases hpts : pointsFromParsed v = [] <;>
              simp [opRaised, hp, hpts, List.isEmpty_iff]
        | error e2 =>
          unfold createSession locateProcess
          rw [if_neg hrec]
          simp [opRaised, hrecne]

/-- C3 counterexample: `fix_html` on the reachable completed session raises
an index error, and `create` with both completion calls failing propagates
the second failure instead of returning an envelope. -/
theorem c3_counterexample :
    fixOp (.ok "resp") exNone "please fix" sDone = .error .indexError
  ∧ createSession (.error "gateway down") (.error "still down") exNone
      "s2" "nb" "NB" 0.0 [recA] = .error (.llmError "still down") :=
  ⟨rfl, rfl⟩

/-- Witness for the amended C3 at the concrete reachable sessions. -/
theorem c3_envelope_no_raise_witness :
    opRaised (chatOp llmAnswer 7.0 "hi" sLearn) = false
  ∧ (opRaised (fixOp (.ok "r") exNone "b" sDone) = true ↔
      sDone.status = .completed) := by
  have h1 := c3_envelope_no_raise (.ok "r") (.ok "s") (.ok "r") (.ok "a")
    (.ok "b") exNone exNone llmAnswer 7.0 "hi" "b" "sid" "nb" "NB" 0.0
    [recA] sLearn
  have h2 := c3_envelope_no_raise (.ok "r") (.ok "s") (.ok "r") (.ok "a")
    (.ok "b") exNone exNone llmAnswer 7.0 "hi" "b" "sid" "nb" "NB" 0.0
    [recA] sDone
  exact ⟨h1.2.2.1 reachable_sLearn, h2.2.2.2.1 reachable_sDone⟩

/-! ### Chat-history scoping and input-validation claims -/

/-- C7: `chat` computes the responder history as exactly the log messages
tagged with the current knowledge-point index (different or absent tags are
excluded), in log order; the responder sees only the formatted history of
those messages; and the formatted window keeps only the most recent 10
entries. -/
theorem c7_chat_history_scope :
    (∀ (s : GuideSession) (m : GuideMessage),
      m ∈ historyFor s ↔
        m ∈ s.chat_history ∧ m.knowledge_index = some s.current_index)
  ∧ (∀ s : GuideSession, (historyFor s).Sublist s.chat_history)
  ∧ (∀ (llm1 llm2 : String → Except String String) (now : Float)
      (q : String) (s : GuideSession),
      llm1 (formatHistory (historyFor s)) =
        llm2 (formatHistory (historyFor s)) →
      chatOp llm1 now q s = chatOp llm2 now q s)
  ∧ (∀ pre hist : List GuideMessage, hist.length = 10 →
      formatHistory (pre ++ hist) = formatHistory hist) := by
  refine ⟨?_, ?_, ?_, ?_⟩
  · intro s m
    simp [historyFor, List.mem_filter]
  · intro s
    exact List.filter_sublist _
  · intro llm1 llm2 now q s h
    have hag : ∀ k, chatAgentProcess llm1 k (historyFor s) q =
        chatAgentProcess llm2 k (historyFor s) q := by
      intro k
      unfold chatAgentProcess
      rw [h]
    by_cases hst : s.status = .learning
    · unfold chatOp
      cases hk : s.knowledge_points[s.current_index]? with
      | none => simp [hst, hk]
      | some k => simp [hst, hk, hag k]
    · unfold chatOp
      simp only [if_pos hst]
  · intro pre hist hlen
    have hne : hist ≠ [] := by
      intro hh
      rw [hh] at hlen
      simp at hlen
    have hne2 : pre ++ hist ≠ [] := by simp [hne]
    have hd1 : (pre ++ hist).drop ((pre ++ hist).length - 10) = hist := by
      rw [List.length_append, hlen, Nat.add_sub_cancel, List.drop_left]
    have hd2 : hist.drop (hist.length - 10) = hist := by
      rw [hlen, Nat.sub_self, List.drop_zero]
    unfold formatHistory lastN
    rw [hd1, hd2]
    simp [List.isEmpty_iff, hne, hne2]

/-- Witness for C7: on the session tagged `[0, 0, 1, 1, 2]` at index 1 the
scoped history is exactly the two index-1 messages, and a 10-entry window
hides the 3 older entries. -/
theorem c7_chat_history_scope_witness :
    ((msgTag 1 "c") ∈ historyFor sTagged ↔
      ((msgTag 1 "c") ∈ sTagged.chat_history ∧
        (msgTag 1 "c").knowledge_index = some sTagged.current_index))
  ∧ historyFor sTagged = [msgTag 1 "c", msgTag 1 "d"]
  ∧ formatHistory (padMsgs ++ tenMsgs) = formatHistory tenMsgs
  ∧ chatOp llmAnswer 8.0 "hello" sTagged =
      chatOp llmAnswer 8.0 "hello" sTagged := by
  refine ⟨c7_chat_history_scope.1 sTagged (msgTag 1 "c"), rfl, ?_, ?_⟩
  · exact c7_chat_history_scope.2.2.2 padMsgs tenMsgs (by decide)
  · exact c7_chat_history_scope.2.2.1 llmAnswer llmAnswer 8.0 "hello"
      sTagged rfl

/-- C8 counterexample: `chat` on a blank message still returns a success
envelope and records the exchange (two appended messages), even though the
chat agent itself rejected the blank question. -/
theorem c8_counterexample :
    opSuccess (chatOp llmAnswer 9.0 "   " sLearn) = true
  ∧ (resultState (chatOp llmAnswer 9.0 "   " sLearn) sLearn).chat_history.length
      = 3
  ∧ sLearn.chat_history.length = 1
  ∧ pyStrip "   " = ""
  ∧ (chatAgentProcess llmAnswer kpA (historyFor sLearn) "   ").success =
      false :=
  ⟨rfl, rfl, rfl, rfl, rfl⟩

/-- C8 (amended): `create` on an empty record set fails immediately with the
no-input condition, independently of the gateway (no retry); the chat agent
rejects a blank message with a failure envelope; but the orchestrator-level
`chat` reports success and appends both the learner message and the (empty)
assistant reply for every message, blank ones included. -/
theorem c8_input_validation (llmS llmF : Except String String)
    (parse : String → Option JsonValue) (sid nid nname : String)
    (t : Float) :
    createSession llmS llmF parse sid nid nname t [] =
      .ok ({ success := false, error := some "No records provided",
             session_id := none }, none)
  ∧ (∀ (llm : String → Except String String) (kp : KnowledgePoint)
      (hist : List GuideMessage) (q : String), pyStrip q = "" →
      chatAgentProcess llm kp hist q =
        { success := false, error := some "Question cannot be empty",
          answer := "" })
  ∧ (∀ (llm : String → Except String String) (now : Float) (q : String)
      (s : GuideSession) (k : KnowledgePoint), s.status = .learning →
      s.knowledge_points[s.current_index]? = some k →
      opSuccess (chatOp llm now q s) = true ∧
      (resultState (chatOp llm now q s) s).chat_history.length =
        s.chat_history.length + 2) := by
  refine ⟨rfl, ?_, ?_⟩
  · intro llm kp hist q hq
    simp [chatAgentProcess, hq]
  · intro llm now q s k hst hk
    unfold chatOp
    rw [if_neg (by simp [hst])]
    simp [hk, opSuccess, resultState]

/-- Witness for the amended C8 at concrete inputs. -/
theorem c8_input_validation_witness :
    createSession (.ok "a") (.ok "b") exNone "sid" "nb" "NB" 0.0 [] =
      .ok ({ success := false, error := some "No records provided",
             session_id := none }, none)
  ∧ chatAgentProcess llmAnswer kpA [] "  " =
      { success := false, error := some "Question cannot be empty",
        answer := "" }
  ∧ opSuccess (chatOp llmAnswer 9.0 "hey" sTagged) = true := by
  have h := c8_input_validation (.ok "a") (.ok "b") exNone "sid" "nb" "NB" 0.0
  exact ⟨h.1, h.2.1 llmAnswer kpA [] "  " rfl,
    (h.2.2 llmAnswer 9.0 "hey" sTagged kpB (by decide) (by decide)).1⟩
